import Mathlib

/-!
Shallow embedding of the script-to-host marshaling and feature-registration
protocol of `src/aegisub/src/auto4_lua.cpp` (the Automation 4 Lua bridge).

The embedded interpreter's generic values are modelled by `LuaValue`; a Lua
table is modelled as the sequence of values visited by the read-back
iteration (only the values are inspected by the code under study, never the
keys).  Script-side callables are modelled as oracles returning a
`CallOutcome` (either a runtime error message or a result value).  The
interpreter's type-test primitives are modelled on `LuaValue`; the
coercions the runtime applies to strings that happen to parse as numbers
are outside the scope of the marshaling code and are not modelled.
-/

/-- Generic script-runtime value. `table` holds the sequence of values the
read-back loop visits; `func` is an opaque reference to a script callable. -/
inductive LuaValue : Type where
  | nil : LuaValue
  | boolean : Bool → LuaValue
  | num : Int → LuaValue
  | str : String → LuaValue
  | table : List LuaValue → LuaValue
  | func : Nat → LuaValue

/-- Type test used by the read-back loop (`lua_isnumber`). -/
def lua_isnumber : LuaValue → Bool
  | LuaValue.num _ => true
  | _ => false

/-- Type test used on a macro/filter return value (`lua_istable`). -/
def lua_istable : LuaValue → Bool
  | LuaValue.table _ => true
  | _ => false

/-- Type test used on registration arguments (`lua_isfunction`). -/
def lua_isfunction : LuaValue → Bool
  | LuaValue.func _ => true
  | _ => false

/-- Numeric read-out (`lua_tointeger`): non-numbers convert to 0. -/
def lua_tointeger : LuaValue → Int
  | LuaValue.num n => n
  | _ => 0

/-- Truthiness (`lua_toboolean`): only `nil` and `false` are falsy. -/
def lua_toboolean : LuaValue → Bool
  | LuaValue.nil => false
  | LuaValue.boolean b => b
  | _ => true

/-- `LuaFeature::CreateIntegerArray`: builds an array-style table from a
zero-based integer sequence, adding one to each element (host is zero-based,
script side is one-based). -/
def CreateIntegerArray (ints : List Int) : LuaValue :=
  LuaValue.table (ints.map (fun i => LuaValue.num (i + 1)))

/-- The read-back loop in `LuaFeatureMacro::Process`: walk the returned
table's values, keep the numeric ones, subtract one from each (script side
is one-based, host is zero-based); non-numeric entries are skipped. -/
def readSelectionEntries : List LuaValue → List Int
  | [] => []
  | LuaValue.num n :: rest => (n - 1) :: readSelectionEntries rest
  | _ :: rest => readSelectionEntries rest

/-- The selection update performed at the end of `LuaFeatureMacro::Process`:
if the script returned a table, the selection is replaced by the converted
numeric entries sorted ascending (`std::sort`); otherwise the caller's
selection is left untouched. -/
def LuaFeatureMacro_Process_selection (ret : LuaValue) (selected : List Int) : List Int :=
  match ret with
  | LuaValue.table entries =>
      List.insertionSort (· ≤ ·) (readSelectionEntries entries)
  | _ => selected

/-- Spec-side description of the numeric subset of a script array: exactly
the numeric entries, in order.  Stated from the spec's words to compare with
the source-derived `readSelectionEntries`. -/
def specNumericEntries (entries : List LuaValue) : List Int :=
  entries.filterMap (fun v =>
    match v with
    | LuaValue.num n => some n
    | _ => none)

theorem readSelectionEntries_map_addOne (S : List Int) :
    readSelectionEntries (S.map (fun i => LuaValue.num (i + 1))) = S := by
  induction S with
  | nil => rfl
  | cons a rest ih =>
      simp [readSelectionEntries, ih]

theorem readSelectionEntries_eq_spec (entries : List LuaValue) :
    readSelectionEntries entries = (specNumericEntries entries).map (fun n => n - 1) := by
  induction entries with
  | nil => rfl
  | cons v rest ih =>
      cases v <;> simp [readSelectionEntries, specNumericEntries, List.filterMap] at * <;>
        simpa [specNumericEntries] using ih

/-- C1: pushing a zero-based selection with the integer-array marshaler
(which adds one) and reading it back with the selection-array reader (which
subtracts one), followed by the caller's ascending sort, yields exactly the
ascending sort of the original sequence. -/
theorem pushIntegerArray_readSelectionArray_roundtrip
    (S : List Int) (sel : List Int) :
    LuaFeatureMacro_Process_selection (CreateIntegerArray S) sel
      = List.insertionSort (· ≤ ·) S := by
  simp [LuaFeatureMacro_Process_selection, CreateIntegerArray,
    readSelectionEntries_map_addOne]

/-- C2: the read-back keeps exactly the numeric entries in order (each
converted one-based to zero-based); a table return value replaces the
selection with the ascending sort of that numeric subset; a non-table
return value leaves the host's existing selection unchanged. -/
theorem process_selection_update_spec :
    (∀ entries : List LuaValue,
        readSelectionEntries entries
          = (specNumericEntries entries).map (fun n => n - 1))
    ∧ (∀ (entries : List LuaValue) (sel : List Int),
        LuaFeatureMacro_Process_selection (LuaValue.table entries) sel
          = List.insertionSort (· ≤ ·)
              ((specNumericEntries entries).map (fun n => n - 1)))
    ∧ (∀ (v : LuaValue) (sel : List Int),
        lua_istable v = false →
          LuaFeatureMacro_Process_selection v sel = sel) := by
  refine ⟨readSelectionEntries_eq_spec, ?_, ?_⟩
  · intro entries sel
    simp [LuaFeatureMacro_Process_selection, readSelectionEntries_eq_spec]
  · intro v sel h
    cases v <;> simp_all [lua_istable, LuaFeatureMacro_Process_selection]

/-- Witness for C2 at concrete inputs: a mixed table is reduced to its
sorted numeric subset, and a non-table return leaves the selection alone. -/
theorem process_selection_update_spec_witness :
    LuaFeatureMacro_Process_selection (LuaValue.str "x") [5, 2] = [5, 2] :=
  process_selection_update_spec.2.2 (LuaValue.str "x") [5, 2] rfl

/-- Kind tag of a registered feature (`ScriptFeatureClass`). -/
inductive ScriptFeatureClass : Type where
  | macroFeature : ScriptFeatureClass
  | filterFeature : ScriptFeatureClass
deriving DecidableEq, Repr

/-- Host-side feature record kept in the session's `features` vector. -/
structure Feature where
  featureclass : ScriptFeatureClass
  name : String
deriving DecidableEq, Repr

/-- `LuaScript::RegisterFeature`: appends to the `features` vector and
returns the new record's zero-based index (`size() - 1`). -/
def Script_RegisterFeature (fs : List Feature) (f : Feature) : List Feature × Nat :=
  (fs ++ [f], fs.length)

/-- Modelled from the spec: the base `Script` class's feature lookup (not in
the reviewed source file) indexes the `features` vector; an out-of-range
index is the `InvalidIndex` failure, modelled as `none`. -/
def Script_Lookup (fs : List Feature) (i : Nat) : Option Feature :=
  fs.get? i

/-- Register a sequence of records in order, collecting the assigned
indices (the repeated `LuaScript::RegisterFeature` calls of one
registration pass). -/
def registerAll (fs : List Feature) : List Feature → List Feature × List Nat
  | [] => (fs, [])
  | f :: rest =>
      let r := Script_RegisterFeature fs f
      let r2 := registerAll r.1 rest
      (r2.1, r.2 :: r2.2)

theorem registerAll_eq (recs : List Feature) :
    ∀ fs : List Feature,
      registerAll fs recs = (fs ++ recs, List.range' fs.length recs.length) := by
  induction recs with
  | nil => intro fs; simp [registerAll]
  | cons f rest ih =>
      intro fs
      simp [registerAll, Script_RegisterFeature, ih, List.range']

/-- C7: registering N features in sequence in a fresh session assigns the
indices 0..N-1 in registration order, and looking up index i returns the
i-th registered record (out-of-range lookups fail). -/
theorem registerFeature_indices_and_lookup (recs : List Feature) :
    (registerAll [] recs).1 = recs
    ∧ (registerAll [] recs).2 = List.range recs.length
    ∧ (∀ i : Nat, Script_Lookup (registerAll [] recs).1 i = recs.get? i) := by
  have h := registerAll_eq recs []
  refine ⟨?_, ?_, ?_⟩
  · simp [h]
  · simp [h, List.range_eq_range']
  · intro i; simp [Script_Lookup, h]

/-- The host document wrapper pushed for a script invocation
(`LuaAssFile(L, subs, can_modify, allow_undo)`); `subs` stands for the
wrapped document. -/
structure LuaAssFile where
  subs : Nat
  can_modify : Bool
  allow_undo : Bool
deriving DecidableEq, Repr

/-- An argument pushed for a script-side callable: either the document
wrapper or a plain marshaled value. -/
inductive ScriptArg : Type where
  | subsHandle : LuaAssFile → ScriptArg
  | value : LuaValue → ScriptArg

/-- Outcome of invoking a script-side callable through `lua_pcall`: a
runtime error message, or a result value. -/
inductive CallOutcome : Type where
  | err : String → CallOutcome
  | ok : LuaValue → CallOutcome

/-- Record of a macro-side feature after registration. -/
structure MacroRec where
  name : String
  description : String
  no_validate : Bool
deriving DecidableEq, Repr

/-- Record of a filter-side feature after registration. -/
structure FilterRec where
  name : String
  description : String
  merit : Int
  has_config : Bool
deriving DecidableEq, Repr

/-- `LuaFeatureMacro::LuaFeatureMacro`: rejects a non-callable processing
argument with a registration error (raised before anything is added to the
registry); otherwise records `no_validate` from whether the validation
argument is callable (an absent argument reads as `nil`, which is not
callable) and registers the feature. -/
def LuaFeatureMacro_new (name description : String)
    (processArg validateArg : LuaValue) (fs : List Feature) :
    Except String (List Feature × MacroRec) :=
  if lua_isfunction processArg then
    let no_validate := ! lua_isfunction validateArg
    let r := Script_RegisterFeature fs
      { featureclass := ScriptFeatureClass.macroFeature, name := name }
    Except.ok (r.1, { name := name, description := description, no_validate := no_validate })
  else
    Except.error "The macro processing function must be a function"

/-- `LuaFeatureFilter::LuaFeatureFilter`: same shape as the macro
constructor; `has_config` records whether the configuration argument is
callable. -/
def LuaFeatureFilter_new (name description : String) (merit : Int)
    (processArg configArg : LuaValue) (fs : List Feature) :
    Except String (List Feature × FilterRec) :=
  if lua_isfunction processArg then
    let has_config := lua_isfunction configArg
    let r := Script_RegisterFeature fs
      { featureclass := ScriptFeatureClass.filterFeature, name := name }
    Except.ok (r.1, { name := name, description := description,
                      merit := merit, has_config := has_config })
  else
    Except.error "The filter processing function must be a function"

/-- Arguments pushed by `LuaFeatureMacro::Validate` before the `lua_pcall`:
a read-only, non-undoable document wrapper, the marshaled selection, and
then `lua_pushinteger(L, -1)` (the source pushes the constant -1 here; the
`active` parameter is not consulted). -/
def LuaFeatureMacro_Validate_args (subs : Nat) (selected : List Int)
    (active : Int) : List ScriptArg :=
  [ ScriptArg.subsHandle { subs := subs, can_modify := false, allow_undo := false },
    ScriptArg.value (CreateIntegerArray selected),
    ScriptArg.value (LuaValue.num (-1)) ]

/-- Arguments pushed by `LuaFeatureMacro::Process` before the threaded
call: a modifiable, undo-enabled document wrapper, the marshaled selection,
and then `lua_pushinteger(L, -1)` (again the constant -1; the `active`
parameter is not consulted). -/
def LuaFeatureMacro_Process_args (subs : Nat) (selected : List Int)
    (active : Int) : List ScriptArg :=
  [ ScriptArg.subsHandle { subs := subs, can_modify := true, allow_undo := true },
    ScriptArg.value (CreateIntegerArray selected),
    ScriptArg.value (LuaValue.num (-1)) ]

/-- `LuaFeatureMacro::Validate`: returns true at once when there is no
validation callable; otherwise invokes the callable on the marshaled
arguments, returning its truthiness on success and false (after logging)
on a script-side runtime error. -/
def LuaFeatureMacro_Validate (subs : Nat) (no_validate : Bool)
    (validation : List ScriptArg → CallOutcome)
    (selected : List Int) (active : Int) : Bool :=
  if no_validate then true
  else
    match validation (LuaFeatureMacro_Validate_args subs selected active) with
    | CallOutcome.err _ => false
    | CallOutcome.ok v => lua_toboolean v

/-- `get_global_string`: reads a global as text, returning the string (or
the decimal rendering of a number, which `lua_tostring` also accepts) and
the empty string for every other type. -/
def get_global_string (v : LuaValue) : String :=
  match v with
  | LuaValue.str s => s
  | LuaValue.num n => toString n
  | _ => ""

/-- The legacy-version check in `LuaScript::Create`:
`lua_isnumber(L, -1) && lua_tointeger(L, -1) == 3`. -/
def isVersion3 (v : LuaValue) : Bool :=
  lua_isnumber v && lua_tointeger v == 3

/-- One observable action of a script's top-level execution (the
registration pass): a `register_macro` call, a `register_filter` call, or
any other script statement that raises a runtime error. -/
inductive TopLevelAction : Type where
  | registerMacroCall : String → String → LuaValue → LuaValue → TopLevelAction
  | registerFilterCall : String → String → Int → LuaValue → LuaValue → TopLevelAction
  | raiseError : String → TopLevelAction

/-- Effect of one top-level action on the feature registry; a registration
error is raised with `lua_error` and aborts the execution. -/
def execTopLevelAction (a : TopLevelAction) (fs : List Feature) :
    Except String (List Feature) :=
  match a with
  | TopLevelAction.registerMacroCall n d p v =>
      (LuaFeatureMacro_new n d p v fs).map Prod.fst
  | TopLevelAction.registerFilterCall n d m p c =>
      (LuaFeatureFilter_new n d m p c fs).map Prod.fst
  | TopLevelAction.raiseError msg => Except.error msg

/-- The `lua_pcall` of the script's top level in `LuaScript::Create`: runs
the actions in order; the first raised error aborts the pass, leaving the
registry as it stood before the failing action. -/
def runTopLevel : List TopLevelAction → List Feature → List Feature × Option String
  | [], fs => (fs, none)
  | a :: rest, fs =>
      match execTopLevelAction a fs with
      | Except.error e => (fs, some e)
      | Except.ok fs2 => runTopLevel rest fs2

/-- The inputs `LuaScript::Create` reads from a script file: the parse
result of `lua_load`, the top-level execution, and the globals inspected
after a successful execution. -/
structure ScriptSource where
  parseError : Option String
  topLevel : List TopLevelAction
  version_global : LuaValue
  script_name : LuaValue
  script_description : LuaValue
  script_author : LuaValue
  script_version : LuaValue

/-- Host-visible state of one script session (`LuaScript`): metadata, the
`features` vector, and whether a live runtime handle `L` exists. -/
structure SessionState where
  name : String
  description : String
  author : String
  version : String
  features : List Feature
  hasRuntime : Bool
deriving DecidableEq, Repr

/-- Message prepended by `LuaScript::Create` when `lua_load` fails. -/
def loadErrorMsg (pretty err : String) : String :=
  "Error loading Lua script \"" ++ pretty ++ "\":\n\n" ++ err

/-- Message prepended by `LuaScript::Create` when the top-level `lua_pcall`
fails. -/
def initErrorMsg (pretty err : String) : String :=
  "Error initialising Lua script \"" ++ pretty ++ "\":\n\n" ++ err

/-- Message of the unsupported legacy-format failure. -/
def auto3ErrorMsg : String :=
  "Attempted to load an Automation 3 script as an Automation 4 Lua script. Automation 3 is no longer supported."

/-- The catch block of `LuaScript::Create`: `Destroy()` (clears the
`features` vector and the runtime handle), then sets the name to the
filename and the description to the failure's message; the other metadata
fields are not touched. -/
def failSession (pretty msg : String) (s : SessionState) : SessionState :=
  { s with features := [], hasRuntime := false, name := pretty, description := msg }

/-- `LuaScript::Create`: parse, execute the top level once (the
registration pass), reject the legacy numeric `version = 3` flag, then read
the metadata globals, defaulting the name to the filename when unset.  Any
failure lands in the catch block (`failSession`). -/
def LuaScript_Create (pretty : String) (src : ScriptSource)
    (prev : SessionState) : SessionState :=
  match src.parseError with
  | some e => failSession pretty (loadErrorMsg pretty e) prev
  | none =>
      match runTopLevel src.topLevel [] with
      | (_, some e) => failSession pretty (initErrorMsg pretty e) prev
      | (fs, none) =>
          if isVersion3 src.version_global then
            failSession pretty auto3ErrorMsg prev
          else
            let n := get_global_string src.script_name
            { name := if n.isEmpty then pretty else n,
              description := get_global_string src.script_description,
              author := get_global_string src.script_author,
              version := get_global_string src.script_version,
              features := fs,
              hasRuntime := true }

/-- `LuaFeatureFilter::ProcessSubs` as the invocation it assembles: the
document wrapper with its flags, the configuration argument (the dialog's
read-back when a configuration exists, else a fresh empty table), the call
shape, and the final processing-complete commit. -/
structure FilterInvocation where
  snapshot : LuaAssFile
  configValue : LuaValue
  nargs : Nat
  nresults : Nat
  can_open_config : Bool
  processingComplete : Bool

/-- `LuaFeatureFilter::ProcessSubs`: always wraps the document with
modifications allowed and undo disallowed (the export path), pushes the
configuration value, runs the threaded call with 2 arguments and 0
results, and finalizes with `ProcessingComplete`. -/
def LuaFeatureFilter_ProcessSubs (subs : Nat) (has_config : Bool)
    (configReadBack : Option LuaValue) : FilterInvocation :=
  { snapshot := { subs := subs, can_modify := true, allow_undo := false },
    configValue :=
      match has_config, configReadBack with
      | true, some v => v
      | _, _ => LuaValue.table [],
    nargs := 2,
    nresults := 0,
    can_open_config := false,
    processingComplete := true }

/-- C3: Load fails exactly when the script fails to parse, its top-level
execution raises an error, or it declares the legacy numeric `version = 3`;
on every failure the session has no live runtime handle, no registered
features, name set to the filename, and description set to the failure's
message. -/
theorem load_failure_characterization (pretty : String) (src : ScriptSource)
    (prev : SessionState) :
    ((LuaScript_Create pretty src prev).hasRuntime = false ↔
      (src.parseError.isSome = true
        ∨ (runTopLevel src.topLevel []).2.isSome = true
        ∨ isVersion3 src.version_global = true))
    ∧ ((LuaScript_Create pretty src prev).hasRuntime = false →
        (LuaScript_Create pretty src prev).features = []
        ∧ (LuaScript_Create pretty src prev).name = pretty
        ∧ ((∃ e, src.parseError = some e
              ∧ (LuaScript_Create pretty src prev).description = loadErrorMsg pretty e)
          ∨ (src.parseError = none
              ∧ ∃ e, (runTopLevel src.topLevel []).2 = some e
                ∧ (LuaScript_Create pretty src prev).description = initErrorMsg pretty e)
          ∨ (src.parseError = none
              ∧ (runTopLevel src.topLevel []).2 = none
              ∧ isVersion3 src.version_global = true
              ∧ (LuaScript_Create pretty src prev).description = auto3ErrorMsg))) := by
  cases hp : src.parseError with
  | some e => simp [LuaScript_Create, hp, failSession]
  | none =>
      cases hr : runTopLevel src.topLevel [] with
      | mk fs oe =>
          cases oe with
          | some e => simp [LuaScript_Create, hp, hr, failSession]
          | none =>
              by_cases hv : isVersion3 src.version_global = true
              · simp [LuaScript_Create, hp, hr, failSession, hv]
              · simp only [Bool.not_eq_true] at hv
                simp [LuaScript_Create, hp, hr, failSession, hv]

/-- Witness for C3: a concrete parse failure leaves an empty feature
registry. -/
theorem load_failure_characterization_witness :
    (LuaScript_Create "f.lua"
        { parseError := some "boom", topLevel := [],
          version_global := LuaValue.nil, script_name := LuaValue.nil,
          script_description := LuaValue.nil, script_author := LuaValue.nil,
          script_version := LuaValue.nil }
        { name := "a", description := "b", author := "c", version := "d",
          features := [], hasRuntime := true }).features = [] :=
  ((load_failure_characterization "f.lua"
      { parseError := some "boom", topLevel := [],
        version_global := LuaValue.nil, script_name := LuaValue.nil,
        script_description := LuaValue.nil, script_author := LuaValue.nil,
        script_version := LuaValue.nil }
      { name := "a", description := "b", author := "c", version := "d",
        features := [], hasRuntime := true }).2 rfl).1

/-- C4: a filter's ProcessSubs always constructs its document snapshot with
modification allowed and undo recording disallowed, for every filter
configuration and every document. -/
theorem processSubs_snapshot_never_undo (subs : Nat) (has_config : Bool)
    (configReadBack : Option LuaValue) :
    (LuaFeatureFilter_ProcessSubs subs has_config configReadBack).snapshot.can_modify = true
    ∧ (LuaFeatureFilter_ProcessSubs subs has_config configReadBack).snapshot.allow_undo = false :=
  ⟨rfl, rfl⟩

/-- C5 (code evidence): both Validate and Process push the constant -1 as
the third script-side argument for every caller-supplied active index; in
particular at active = 5 the pushed value is not the marshaled active index
(which would be 6). -/
theorem active_line_argument_is_constant :
    (∀ (subs : Nat) (selected : List Int) (active : Int),
      (LuaFeatureMacro_Process_args subs selected active).get? 2
        = some (ScriptArg.value (LuaValue.num (-1)))
      ∧ (LuaFeatureMacro_Validate_args subs selected active).get? 2
        = some (ScriptArg.value (LuaValue.num (-1))))
    ∧ ((LuaFeatureMacro_Process_args 0 [0] 5).get? 2
        = some (ScriptArg.value (LuaValue.num (5 + 1))) → False) := by
  constructor
  · intro subs selected active
    exact ⟨rfl, rfl⟩
  · intro h
    simp [LuaFeatureMacro_Process_args] at h

/-- Witness for C5 at a concrete input: the third pushed argument is -1. -/
theorem active_line_argument_is_constant_witness :
    (LuaFeatureMacro_Process_args 0 [] 0).get? 2
      = some (ScriptArg.value (LuaValue.num (-1)))
    ∧ (LuaFeatureMacro_Validate_args 0 [] 0).get? 2
      = some (ScriptArg.value (LuaValue.num (-1))) :=
  active_line_argument_is_constant.1 0 [] 0

/-- C6: a validation callable that raises a script-side runtime error makes
Validate return false; the error is consumed, not propagated. -/
theorem validate_error_returns_false (subs : Nat)
    (validation : List ScriptArg → CallOutcome)
    (selected : List Int) (active : Int) (msg : String)
    (h : validation (LuaFeatureMacro_Validate_args subs selected active)
        = CallOutcome.err msg) :
    LuaFeatureMacro_Validate subs false validation selected active = false := by
  simp [LuaFeatureMacro_Validate, h]

/-- Witness for C6: a validator that always errors yields false. -/
theorem validate_error_returns_false_witness :
    LuaFeatureMacro_Validate 0 false (fun _ => CallOutcome.err "boom") [] 0 = false :=
  validate_error_returns_false 0 (fun _ => CallOutcome.err "boom") [] 0 "boom" rfl

/-- C8: a macro or filter registration whose processing argument is not
callable fails with the registration error, adds nothing to the registry,
aborts the registration pass, and surfaces to the Load caller as the
load-failure state. -/
theorem noncallable_process_registration_fails
    (n d : String) (m : Int) (p v c : LuaValue) (fs : List Feature)
    (rest : List TopLevelAction) (h : lua_isfunction p = false) :
    LuaFeatureMacro_new n d p v fs
      = Except.error "The macro processing function must be a function"
    ∧ LuaFeatureFilter_new n d m p c fs
      = Except.error "The filter processing function must be a function"
    ∧ runTopLevel (TopLevelAction.registerMacroCall n d p v :: rest) fs
      = (fs, some "The macro processing function must be a function")
    ∧ (∀ (pretty : String) (src : ScriptSource) (prev : SessionState),
        src.parseError = none →
        src.topLevel = TopLevelAction.registerMacroCall n d p v :: rest →
        LuaScript_Create pretty src prev
          = failSession pretty
              (initErrorMsg pretty "The macro processing function must be a function")
              prev) := by
  refine ⟨?_, ?_, ?_, ?_⟩
  · simp [LuaFeatureMacro_new, h]
  · simp [LuaFeatureFilter_new, h]
  · simp [runTopLevel, execTopLevelAction, LuaFeatureMacro_new, h, Except.map]
  · intro pretty src prev hp ht
    simp [LuaScript_Create, hp, ht, runTopLevel, execTopLevelAction,
      LuaFeatureMacro_new, h, Except.map]

/-- Witness for C8: registering with a nil processing argument fails with
the macro registration error. -/
theorem noncallable_process_registration_fails_witness :
    LuaFeatureMacro_new "m" "d" LuaValue.nil LuaValue.nil []
      = Except.error "The macro processing function must be a function" :=
  (noncallable_process_registration_fails "m" "d" 0 LuaValue.nil LuaValue.nil
    LuaValue.nil [] [] rfl).1

/-- C9: when a load fails, the failure handler updates only the name and
description; the author and version attributes keep the values from the
previous load. -/
theorem load_failure_preserves_author_version (pretty : String)
    (src : ScriptSource) (prev : SessionState)
    (h : (LuaScript_Create pretty src prev).hasRuntime = false) :
    (LuaScript_Create pretty src prev).author = prev.author
    ∧ (LuaScript_Create pretty src prev).version = prev.version
    ∧ (LuaScript_Create pretty src prev).name = pretty := by
  cases hp : src.parseError with
  | some e => simp [LuaScript_Create, hp, failSession]
  | none =>
      cases hr : runTopLevel src.topLevel [] with
      | mk fs oe =>
          cases oe with
          | some e => simp [LuaScript_Create, hp, hr, failSession]
          | none =>
              by_cases hv : isVersion3 src.version_global = true
              · simp [LuaScript_Create, hp, hr, failSession, hv]
              · simp only [Bool.not_eq_true] at hv
                simp [LuaScript_Create, hp, hr, hv] at h

/-- Witness for C9: a concrete parse failure keeps the previous author. -/
theorem load_failure_preserves_author_version_witness :
    (LuaScript_Create "f.lua"
        { parseError := some "oops", topLevel := [],
          version_global := LuaValue.nil, script_name := LuaValue.nil,
          script_description := LuaValue.nil, script_author := LuaValue.nil,
          script_version := LuaValue.nil }
        { name := "old", description := "olddesc", author := "Auth",
          version := "1.0", features := [], hasRuntime := true }).author = "Auth" :=
  (load_failure_preserves_author_version "f.lua"
      { parseError := some "oops", topLevel := [],
        version_global := LuaValue.nil, script_name := LuaValue.nil,
        script_description := LuaValue.nil, script_author := LuaValue.nil,
        script_version := LuaValue.nil }
      { name := "old", description := "olddesc", author := "Auth",
        version := "1.0", features := [], hasRuntime := true } rfl).1

/-- C10: a non-callable validation argument is accepted and is treated
exactly like an absent one (an absent argument reads as nil): registration
succeeds with the no-validate flag set, and Validate then returns true for
every input without consulting the validation callable. -/
theorem noncallable_validator_means_always_valid
    (n d : String) (p v : LuaValue) (fs : List Feature)
    (hp : lua_isfunction p = true) (hv : lua_isfunction v = false) :
    LuaFeatureMacro_new n d p v fs = LuaFeatureMacro_new n d p LuaValue.nil fs
    ∧ (∃ fs2 r, LuaFeatureMacro_new n d p v fs = Except.ok (fs2, r)
        ∧ r.no_validate = true)
    ∧ (∀ (subs : Nat) (validation : List ScriptArg → CallOutcome)
        (selected : List Int) (active : Int),
        LuaFeatureMacro_Validate subs true validation selected active = true) := by
  have hnil : lua_isfunction LuaValue.nil = false := rfl
  refine ⟨?_, ?_, ?_⟩
  · simp [LuaFeatureMacro_new, hp, hv, hnil]
  · refine ⟨(Script_RegisterFeature fs
        { featureclass := ScriptFeatureClass.macroFeature, name := n }).1,
      { name := n, description := d, no_validate := true }, ?_, rfl⟩
    simp [LuaFeatureMacro_new, hp, hv]
  · intro subs validation selected active
    rfl

/-- Witness for C10: a numeric validation argument behaves like an absent
validator. -/
theorem noncallable_validator_means_always_valid_witness :
    LuaFeatureMacro_Validate 3 true (fun _ => CallOutcome.err "never") [] 0 = true :=
  (noncallable_validator_means_always_valid "m" "d" (LuaValue.func 0)
    (LuaValue.num 7) [] rfl rfl).2.2 3 (fun _ => CallOutcome.err "never") [] 0
